import Mathlib

/-!
# E-commerce Ordering & Payment System — verification of the order/payment core

Shallow embedding of the order/payment engine of the repository
(`products/models.py`, `orders/models.py`, `orders/services.py`,
`payments/models.py`, `payments/views.py`).

Modelling conventions:
* Money is carried in integer cents (`Int`); the source uses `Decimal` with
  scale 2, whose exact arithmetic on `quantity × price` coincides with the
  integer model.
* Django `IntegerField` quantities and stock are `Int`.
* A Python method that may `raise` is modelled either as `Except String`
  (when it mutates nothing before raising) or as a function returning the
  mutated-so-far state together with an `Option String` error (when the
  source mutates state before the exception escapes, as in
  `Order.mark_as_paid`, whose status save precedes the stock loop).
* `django.db.transaction.atomic` is modelled by `atomically`: on an error
  the pre-call database state is restored.
* `timezone.now()` is modelled by an explicit `now : Nat` argument.
* Timestamps other than `Payment.completed_at`, and fields irrelevant to
  every claim (`sku`, `slug`, `image_url`, category data, ...), are not
  modelled.
-/

/-- `Product.STATUS_CHOICES` from `products/models.py`. -/
inductive ProductStatus
  | active
  | inactive
  | out_of_stock
deriving DecidableEq, Repr

/-- `Order.STATUS_CHOICES` from `orders/models.py`. -/
inductive OrderStatus
  | pending
  | paid
  | processing
  | shipped
  | delivered
  | cancelled
deriving DecidableEq, Repr

/-- `Payment.STATUS_CHOICES` from `payments/models.py`. -/
inductive PaymentStatus
  | pending
  | processing
  | success
  | failed
  | cancelled
  | refunded
deriving DecidableEq, Repr

/-- Row of the `products` table (`products/models.py`, class `Product`). -/
structure Product where
  id : Nat
  price : Int
  stock : Int
  status : ProductStatus
deriving DecidableEq, Repr

namespace Product

/-- `Product.is_available`: `status == 'active' and stock > 0`. -/
def is_available (p : Product) : Bool :=
  p.status == .active && p.stock > 0

/-- `Product.reduce_stock`.  Raises (= `.error`) on non-positive quantity and
on insufficient stock; otherwise decrements stock, flipping the status to
`out_of_stock` when the stock reaches zero. -/
def reduce_stock (p : Product) (quantity : Int) : Except String Product :=
  if quantity ≤ 0 then
    .error "Quantity must be positive"
  else if p.stock < quantity then
    .error "Insufficient stock"
  else
    let stock := p.stock - quantity
    .ok { p with
          stock := stock,
          status := if stock = 0 then .out_of_stock else p.status }

/-- `Product.increase_stock`.  Raises on non-positive quantity; otherwise
increments stock, reactivating a product that was `out_of_stock`. -/
def increase_stock (p : Product) (quantity : Int) : Except String Product :=
  if quantity ≤ 0 then
    .error "Quantity must be positive"
  else
    .ok { p with
          stock := p.stock + quantity,
          status := if p.status = .out_of_stock then .active else p.status }

end Product

/-- `Product.objects.get(id=pid)` over the table rows. -/
def findProduct (ps : List Product) (pid : Nat) : Option Product :=
  ps.find? (fun p => p.id == pid)

/-- `product.save()`: rewrite the row(s) carrying `q`'s primary key. -/
def updateProduct (ps : List Product) (q : Product) : List Product :=
  ps.map (fun p => if p.id == q.id then q else p)

/-- Stock of the product with key `pid`, if present. -/
def stockOf (ps : List Product) (pid : Nat) : Option Int :=
  (findProduct ps pid).map Product.stock

/-- Row of the `orders` table (`orders/models.py`, class `Order`). -/
structure Order where
  id : Nat
  user_id : Nat
  total_amount : Int
  status : OrderStatus
  notes : String
deriving DecidableEq, Repr

/-- Row of the `order_items` table (`orders/models.py`, class `OrderItem`). -/
structure OrderItem where
  id : Nat
  order_id : Nat
  product_id : Nat
  quantity : Int
  price : Int
  subtotal : Int
deriving DecidableEq, Repr

/-- `Order.objects.get(id=oid)` over the table rows. -/
def findOrder (os : List Order) (oid : Nat) : Option Order :=
  os.find? (fun o => o.id == oid)

/-- `order.save()`: rewrite the row(s) carrying `q`'s primary key. -/
def updateOrder (os : List Order) (q : Order) : List Order :=
  os.map (fun o => if o.id == q.id then q else o)

/-- `order.items.all()`: the items belonging to order `oid`. -/
def itemsOfOrder (its : List OrderItem) (oid : Nat) : List OrderItem :=
  its.filter (fun it => it.order_id == oid)

namespace OrderItem

/-- `OrderItem.calculate_subtotal`: `quantity * price`. -/
def calculate_subtotal (it : OrderItem) : Int :=
  it.quantity * it.price

end OrderItem

namespace Order

/-- `Order.calculate_total`: sum of the subtotals of the order's items. -/
def calculate_total (items : List OrderItem) : Int :=
  items.foldl (fun total it => total + it.subtotal) 0

/-- `Order.can_be_modified`. -/
def can_be_modified (o : Order) : Bool :=
  o.status == .pending

end Order

/-- The `for item in self.items.all(): item.product.reduce_stock(item.quantity)`
loop of `Order.mark_as_paid`.  Each `reduce_stock` saves its product row; on
the first exception the loop aborts, leaving the rows saved so far (the
method is not wrapped in `transaction.atomic`), so the partially mutated
table is returned together with the escaping error. -/
def reduce_stock_loop : List OrderItem → List Product → List Product × Option String
  | [], ps => (ps, none)
  | it :: rest, ps =>
    match findProduct ps it.product_id with
    | none => (ps, some "Product not found")
    | some p =>
      match p.reduce_stock it.quantity with
      | .error e => (ps, some e)
      | .ok p' => reduce_stock_loop rest (updateProduct ps p')

/-- The `for item in self.items.all(): item.product.increase_stock(...)` loop
of `Order.cancel`, with the same partial-mutation semantics as
`reduce_stock_loop`. -/
def increase_stock_loop : List OrderItem → List Product → List Product × Option String
  | [], ps => (ps, none)
  | it :: rest, ps =>
    match findProduct ps it.product_id with
    | none => (ps, some "Product not found")
    | some p =>
      match p.increase_stock it.quantity with
      | .error e => (ps, some e)
      | .ok p' => increase_stock_loop rest (updateProduct ps p')

namespace Order

/-- `Order.mark_as_paid`.  Raises unless the status is `pending`; otherwise
the status is saved to `paid` *before* the stock loop runs, so a stock
failure escapes with the order already paid.  Returns
(order row, products table, escaping error if any). -/
def mark_as_paid (o : Order) (items : List OrderItem) (ps : List Product) :
    Order × List Product × Option String :=
  if o.status ≠ .pending then
    (o, ps, some "Cannot mark order as paid")
  else
    let o' := { o with status := OrderStatus.paid }
    let (ps', err) := reduce_stock_loop items ps
    (o', ps', err)

/-- `Order.cancel`.  Raises on `shipped`/`delivered`; restores stock first
when the order was `paid`; only then saves the status to `cancelled` (so a
stock error escapes with the status not yet changed). -/
def cancel (o : Order) (items : List OrderItem) (ps : List Product) :
    Order × List Product × Option String :=
  if o.status = .shipped ∨ o.status = .delivered then
    (o, ps, some "Cannot cancel order")
  else
    let (ps', err) :=
      if o.status = .paid then increase_stock_loop items ps else (ps, none)
    match err with
    | some e => (o, ps', some e)
    | none => ({ o with status := OrderStatus.cancelled }, ps', none)

end Order

/-- Row of the `payments` table (`payments/models.py`, class `Payment`).
`raw_response` and `metadata` are opaque provider payloads, modelled as
strings. -/
structure Payment where
  id : Nat
  order_id : Nat
  provider : String
  transaction_id : String
  amount : Int
  currency : String
  status : PaymentStatus
  raw_response : String
  error_message : String
  metadata : String
  completed_at : Option Nat
deriving DecidableEq, Repr

namespace Payment

/-- `Payment.can_be_refunded`: `status == 'success'`. -/
def can_be_refunded (pay : Payment) : Bool :=
  pay.status == .success

/-- `Payment.is_successful`. -/
def is_successful (pay : Payment) : Bool :=
  pay.status == .success

/-- `Payment.is_pending`. -/
def is_pending (pay : Payment) : Bool :=
  pay.status == .pending

/-- `Payment.mark_as_processing`. -/
def mark_as_processing (pay : Payment) : Payment :=
  { pay with status := PaymentStatus.processing }

/-- `Payment.mark_as_success`.  Unconditionally stamps `status = 'success'`
and `completed_at = timezone.now()` (overwriting any earlier value), stores
`transaction_data` into `raw_response` when truthy, saves, and then calls
`order.mark_as_paid()`; a `ValueError` from the order side (wrong status, or
a stock-decrement failure) is caught and logged, never propagated. -/
def mark_as_success (pay : Payment) (now : Nat) (transaction_data : Option String)
    (o : Order) (items : List OrderItem) (ps : List Product) :
    Payment × Order × List Product :=
  let pay' := { pay with
      status := PaymentStatus.success,
      completed_at := some now,
      raw_response := transaction_data.getD pay.raw_response }
  let (o', ps', _err) := o.mark_as_paid items ps
  (pay', o', ps')

/-- `Payment.mark_as_failed`: stamps `status = 'failed'`, the error message,
and `completed_at = timezone.now()`. -/
def mark_as_failed (pay : Payment) (now : Nat) (error_message : String)
    (transaction_data : Option String) : Payment :=
  { pay with
      status := PaymentStatus.failed,
      error_message := error_message,
      completed_at := some now,
      raw_response := transaction_data.getD pay.raw_response }

end Payment

/-- The database state touched by a payment-side view: the payment row, its
order, the order's items, and the products table
(`payments/views.py` handlers). -/
structure PayCtx where
  payment : Payment
  order : Order
  items : List OrderItem
  products : List Product
deriving DecidableEq, Repr

/-- Normalized result dict returned by a provider strategy call
(`payment_strategies.py`): `success`, `status`, `raw_response`, `error`. -/
structure ProviderResult where
  success : Bool
  status : String
  raw_response : String
  error : String
deriving DecidableEq, Repr

/-- Result dict of a provider `create_payment` call. -/
structure ProviderCreateResult where
  success : Bool
  transaction_id : String
  raw_response : String
  error : String
deriving DecidableEq, Repr

/-- Parsed webhook event as produced by `handle_webhook`
(`stripe_webhook_view` consumes `event_type` and `data`). -/
structure WebhookResult where
  success : Bool
  event_type : String
  data_id : String
  data : String
  error_message : String
deriving DecidableEq, Repr

/-- Python's `str.lower()` on the ASCII provider/status strings
(`String.toLower` itself is avoided only because its recursion scheme does
not reduce inside the kernel). -/
def pyLower (s : String) : String :=
  String.mk (s.data.map Char.toLower)

/-- `get_payment_strategy` (`payment_strategies.py`): the factory knows
`'stripe'` and `'bkash'` (after lowercasing) and raises otherwise. -/
def valid_provider (provider : String) : Bool :=
  pyLower provider == "stripe" || pyLower provider == "bkash"

/-- `confirm_payment_view` (`payments/views.py`).  Auth, ownership and
serializer checks are out of the model; the provider's `confirm_payment`
result is an input.  Returns the updated state and whether the response was
a success response.  A non-`pending` payment is rejected before anything
else; an unknown provider raises (modelled as a failure response). -/
def confirm_payment_view (ctx : PayCtx) (result : ProviderResult) (now : Nat) :
    PayCtx × Bool :=
  if !ctx.payment.is_pending then (ctx, false)
  else if !valid_provider ctx.payment.provider then (ctx, false)
  else if result.success then
    let (pay', o', ps') :=
      ctx.payment.mark_as_success now (some result.raw_response)
        ctx.order ctx.items ctx.products
    ({ ctx with payment := pay', order := o', products := ps' }, true)
  else
    ({ ctx with payment :=
        ctx.payment.mark_as_failed now result.error (some result.raw_response) },
     false)

/-- `payment_status_view` (`payments/views.py`): polls the provider and
reconciles the local payment row with the reported status. -/
def payment_status_view (ctx : PayCtx) (result : ProviderResult) (now : Nat) :
    PayCtx × Bool :=
  if !valid_provider ctx.payment.provider then (ctx, false)
  else if result.success then
    let provider_status := pyLower result.status
    if ["succeeded", "completed", "success"].contains provider_status then
      if ctx.payment.status ≠ .success then
        let (pay', o', ps') :=
          ctx.payment.mark_as_success now (some result.raw_response)
            ctx.order ctx.items ctx.products
        ({ ctx with payment := pay', order := o', products := ps' }, true)
      else (ctx, true)
    else if ["failed", "cancelled"].contains provider_status then
      if ctx.payment.status ≠ .failed ∧ ctx.payment.status ≠ .cancelled then
        ({ ctx with payment :=
            ctx.payment.mark_as_failed now "" (some result.raw_response) }, true)
      else (ctx, true)
    else (ctx, true)
  else (ctx, false)

/-- `refund_payment_view` (`payments/views.py`): admin-only (out of model);
rejected unless `can_be_refunded()`; on provider success the status is saved
as `refunded` with a refund record in `metadata`. -/
def refund_payment_view (ctx : PayCtx) (result : ProviderResult) (reason : String) :
    PayCtx × Bool :=
  if !ctx.payment.can_be_refunded then (ctx, false)
  else if !valid_provider ctx.payment.provider then (ctx, false)
  else if result.success then
    ({ ctx with payment :=
        { ctx.payment with status := PaymentStatus.refunded, metadata := reason } },
     true)
  else (ctx, false)

/-- `stripe_webhook_view` (`payments/views.py`).  On a
`payment_intent.succeeded` event the payment matching the event's
transaction id is driven through `mark_as_success` with *no* guard on its
current status; likewise `payment_intent.payment_failed` drives it through
`mark_as_failed`.  A non-matching id (`Payment.DoesNotExist`) and an
unrecognized event type are logged and ignored with a 200 response. -/
def stripe_webhook_view (ctx : PayCtx) (wh : WebhookResult) (now : Nat) :
    PayCtx × Bool :=
  if !wh.success then (ctx, false)
  else if wh.event_type == "payment_intent.succeeded" then
    if ctx.payment.transaction_id == wh.data_id then
      let (pay', o', ps') :=
        ctx.payment.mark_as_success now (some wh.data) ctx.order ctx.items ctx.products
      ({ ctx with payment := pay', order := o', products := ps' }, true)
    else (ctx, true)
  else if wh.event_type == "payment_intent.payment_failed" then
    if ctx.payment.transaction_id == wh.data_id then
      ({ ctx with payment :=
          ctx.payment.mark_as_failed now wh.error_message (some wh.data) }, true)
    else (ctx, true)
  else (ctx, true)

/-- One entry of the `items` argument of `OrderService.create_order`
(a dict with `product_id` and `quantity`). -/
structure CartItem where
  product_id : Nat
  quantity : Int
deriving DecidableEq, Repr

/-- The relational store as seen by the order services.  New rows receive
the current table length as primary key. -/
structure DB where
  products : List Product
  orders : List Order
  order_items : List OrderItem
  payments : List Payment
deriving DecidableEq, Repr

/-- `django.db.transaction.atomic` as a decorator: if the body escapes with
an error, every write it performed is rolled back. -/
def atomically {α : Type} (f : DB → DB × Except String α) (db : DB) :
    DB × Except String α :=
  match f db with
  | (_, .error e) => (db, .error e)
  | ok => ok

/-- The row actually inserted by `OrderItem.save` (`orders/models.py`):
the unit price is taken from the product when unset (falsy), and
`subtotal` is recomputed as `quantity * price`. -/
def savedItem (db : DB) (it : OrderItem) : OrderItem :=
  let price :=
    if it.price = 0 then
      ((findProduct db.products it.product_id).map Product.price).getD it.price
    else it.price
  { it with price := price, subtotal := it.quantity * price }

/-- `OrderItem.save` (insert path, `orders/models.py`): inserts the row and
triggers `order.recalculate_and_save()` on the parent order. -/
def DB.save_order_item (db : DB) (it : OrderItem) : DB :=
  let it' := savedItem db it
  let its' := db.order_items ++ [it']
  match findOrder db.orders it.order_id with
  | none => { db with order_items := its' }
  | some o =>
    let o' := { o with total_amount := Order.calculate_total (itemsOfOrder its' o.id) }
    { db with order_items := its', orders := updateOrder db.orders o' }

/-- `OrderItem.delete` (`orders/models.py`): removes the row and triggers
`order.recalculate_and_save()` on the parent order. -/
def DB.delete_order_item (db : DB) (it : OrderItem) : DB :=
  let its' := db.order_items.filter (fun x => x.id ≠ it.id)
  match findOrder db.orders it.order_id with
  | none => { db with order_items := its' }
  | some o =>
    let o' := { o with total_amount := Order.calculate_total (itemsOfOrder its' o.id) }
    { db with order_items := its', orders := updateOrder db.orders o' }

/-- `product.save()` issued from outside the order engine (e.g., an admin
price edit): rewrites the product row only. -/
def DB.update_product_row (db : DB) (q : Product) : DB :=
  { db with products := updateProduct db.products q }

/-- The `for item_data in items:` loop of `OrderService.create_order`:
validates each item against the products table and inserts an `OrderItem`
(capturing `price=product.price`); the first validation failure raises,
leaving the rows inserted so far (the surrounding `transaction.atomic`
discards them). -/
def create_order_items_loop (oid : Nat) : List CartItem → DB → DB × Option String
  | [], db => (db, none)
  | ci :: rest, db =>
    match findProduct db.products ci.product_id with
    | none => (db, some "Product not found")
    | some p =>
      if !p.is_available then (db, some "Product is not available")
      else if p.stock < ci.quantity then (db, some "Insufficient stock")
      else
        let db' := db.save_order_item
          { id := db.order_items.length, order_id := oid,
            product_id := ci.product_id, quantity := ci.quantity,
            price := p.price, subtotal := 0 }
        create_order_items_loop oid rest db'

namespace OrderService

/-- Body of `OrderService.create_order` before the `transaction.atomic`
wrapper: reject an empty item list, insert the order with total 0, run the
item loop, and re-read the order row. -/
def create_order_body (db : DB) (user_id : Nat) (items : List CartItem)
    (notes : String) : DB × Except String Order :=
  if items.isEmpty then (db, .error "Order must contain at least one item")
  else
    let oid := db.orders.length
    let order : Order :=
      { id := oid, user_id := user_id, total_amount := 0,
        status := OrderStatus.pending, notes := notes }
    let db1 := { db with orders := db.orders ++ [order] }
    match create_order_items_loop oid items db1 with
    | (db2, some e) => (db2, .error e)
    | (db2, none) =>
      match findOrder db2.orders oid with
      | some o => (db2, .ok o)
      | none => (db2, .error "Order not found")

/-- `OrderService.create_order` = `transaction.atomic` around the body. -/
def create_order (db : DB) (user_id : Nat) (items : List CartItem)
    (notes : String) : DB × Except String Order :=
  atomically (fun d => create_order_body d user_id items notes) db

/-- `OrderService.get_order_details` without the ownership check (the
claims under verification never pass a non-owning user). -/
def get_order_details (db : DB) (oid : Nat) : Except String Order :=
  match findOrder db.orders oid with
  | some o => .ok o
  | none => .error "Order not found"

/-- Body of `OrderService.cancel_order`: fetch the order and run
`order.cancel()`, writing back the rows it saved; a `ValueError` is
re-raised as `ValidationError`. -/
def cancel_order_body (db : DB) (oid : Nat) : DB × Except String Order :=
  match get_order_details db oid with
  | .error e => (db, .error e)
  | .ok o =>
    match o.cancel (itemsOfOrder db.order_items oid) db.products with
    | (o', ps', none) =>
      ({ db with orders := updateOrder db.orders o', products := ps' }, .ok o')
    | (_, ps', some e) =>
      ({ db with products := ps' }, .error e)

/-- `OrderService.cancel_order` = `transaction.atomic` around the body. -/
def cancel_order (db : DB) (oid : Nat) : DB × Except String Order :=
  atomically (fun d => cancel_order_body d oid) db

end OrderService

namespace OrderValidationService

/-- The per-item checks of `validate_order_items`: quantity positive,
product present, available, and sufficiently stocked. -/
def item_errors (ps : List Product) (ci : CartItem) : List String :=
  (if ci.quantity ≤ 0 then ["quantity must be positive"] else []) ++
  (match findProduct ps ci.product_id with
   | none => ["Product not found"]
   | some p =>
     (if !p.is_available then ["Product is not available"] else []) ++
     (if p.stock < ci.quantity then ["Insufficient stock"] else []))

/-- `OrderValidationService.validate_order_items`: all errors, itemized. -/
def validate_order_items (ps : List Product) (items : List CartItem) :
    List String :=
  if items.isEmpty then ["Order must contain at least one item"]
  else (items.map (item_errors ps)).flatten

/-- `OrderValidationService.can_proceed_to_payment`: the order must be
`pending`, with a positive total, at least one item, and every item still
available and in stock. -/
def can_proceed_to_payment (db : DB) (o : Order) : Bool × String :=
  if o.status ≠ .pending then (false, "Order status must be pending")
  else if o.total_amount ≤ 0 then (false, "Order total must be greater than zero")
  else
    let items := itemsOfOrder db.order_items o.id
    if items.isEmpty then (false, "Order has no items")
    else
      match items.find? (fun it =>
        match findProduct db.products it.product_id with
        | none => true
        | some p => !p.is_available || p.stock < it.quantity) with
      | some _ => (false, "Item unavailable or insufficient stock")
      | none => (true, "Order can proceed to payment")

end OrderValidationService

/-- Success payload of `CheckoutService.create_order_and_initiate_payment`. -/
structure CheckoutOk where
  order_id : Nat
  payment_id : Nat
  transaction_id : String
  amount : Int
  currency : String
  provider : String
deriving DecidableEq, Repr

namespace CheckoutService

/-- Body of `CheckoutService.create_order_and_initiate_payment` before its
`transaction.atomic` decorator (`orders/services.py`): validate, create the
order, re-validate, resolve the provider, call the provider's
`create_payment` (its result `pr` is an input), and persist the `Payment`
row.  Any failure after order creation raises `ValidationError` out of the
body (the `except Exception` clause re-raises), leaving the partially
written state to the decorator. -/
def create_order_and_initiate_payment_body (db : DB) (user_id : Nat)
    (items : List CartItem) (payment_provider : String) (notes : String)
    (pr : ProviderCreateResult) : DB × Except String CheckoutOk :=
  let errs := OrderValidationService.validate_order_items db.products items
  if !errs.isEmpty then (db, .error (String.intercalate "; " errs))
  else
    match OrderService.create_order db user_id items notes with
    | (db1, .error e) => (db1, .error e)
    | (db1, .ok order) =>
      let cp := OrderValidationService.can_proceed_to_payment db1 order
      if !cp.1 then (db1, .error cp.2)
      else if !valid_provider payment_provider then
        (db1, .error "Payment initiation failed: Unsupported payment provider")
      else
        let currency := if pyLower payment_provider == "bkash" then "BDT" else "USD"
        if !pr.success then
          (db1, .error "Payment initiation failed")
        else
          let payment : Payment :=
            { id := db1.payments.length, order_id := order.id,
              provider := pyLower payment_provider,
              transaction_id := pr.transaction_id,
              amount := order.total_amount, currency := currency,
              status := PaymentStatus.pending,
              raw_response := pr.raw_response, error_message := "",
              metadata := "", completed_at := none }
          ({ db1 with payments := db1.payments ++ [payment] },
           .ok { order_id := order.id, payment_id := payment.id,
                 transaction_id := pr.transaction_id,
                 amount := order.total_amount, currency := currency,
                 provider := payment_provider })

/-- `CheckoutService.create_order_and_initiate_payment` =
`transaction.atomic` around the body. -/
def create_order_and_initiate_payment (db : DB) (user_id : Nat)
    (items : List CartItem) (payment_provider : String) (notes : String)
    (pr : ProviderCreateResult) : DB × Except String CheckoutOk :=
  atomically
    (fun d => create_order_and_initiate_payment_body d user_id items
                payment_provider notes pr) db

end CheckoutService

/-- Captured unit price of product `pid` as read by `create_order`. -/
def priceOf (ps : List Product) (pid : Nat) : Int :=
  ((findProduct ps pid).map Product.price).getD 0

/-- The documented `Order` invariant: `total_amount` equals the sum of the
order's items' subtotals. -/
def OrderTotalInv (db : DB) (oid : Nat) : Prop :=
  ∀ o, findOrder db.orders oid = some o →
    o.total_amount = Order.calculate_total (itemsOfOrder db.order_items oid)

/-- The validation performed on one cart item by the `create_order` loop:
the product exists, is available, and has at least the requested stock. -/
def validCartItem (ps : List Product) (ci : CartItem) : Bool :=
  match findProduct ps ci.product_id with
  | none => false
  | some p => p.is_available && !(p.stock < ci.quantity)

/-! ### Concrete sample rows, used to instantiate the theorems -/

/-- A product with ample stock. -/
def sampleProduct : Product :=
  { id := 1, price := 50, stock := 10, status := .active }

/-- A product whose stock is lower than the sample item's quantity. -/
def lowStockProduct : Product :=
  { id := 1, price := 50, stock := 2, status := .active }

/-- A pending order. -/
def sampleOrder : Order :=
  { id := 0, user_id := 7, total_amount := 100, status := .pending, notes := "" }

/-- An item of order 0: two units of product 1 at 50 cents. -/
def sampleItem : OrderItem :=
  { id := 0, order_id := 0, product_id := 1, quantity := 2, price := 50,
    subtotal := 100 }

/-- An item of order 0 requesting five units of product 1. -/
def bigItem : OrderItem :=
  { id := 0, order_id := 0, product_id := 1, quantity := 5, price := 50,
    subtotal := 250 }

/-- A pending payment for order 0. -/
def samplePayment : Payment :=
  { id := 0, order_id := 0, provider := "stripe", transaction_id := "pi_1",
    amount := 100, currency := "USD", status := .pending, raw_response := "",
    error_message := "", metadata := "", completed_at := none }

/-- A payment already in `failed` with its completion timestamp set. -/
def failedPayment : Payment :=
  { samplePayment with status := .failed, completed_at := some 1 }

/-- A payment already in `success` with its completion timestamp set. -/
def successPayment : Payment :=
  { samplePayment with
    status := .success, completed_at := some 1, raw_response := "r0" }

/-- View context around `failedPayment`. -/
def failedCtx : PayCtx :=
  { payment := failedPayment, order := sampleOrder, items := [sampleItem],
    products := [sampleProduct] }

/-- View context around `successPayment` (its order already `paid`). -/
def successCtx : PayCtx :=
  { payment := successPayment, order := { sampleOrder with status := .paid },
    items := [sampleItem], products := [sampleProduct] }

/-- A provider poll reporting `succeeded`. -/
def pollSucceeded : ProviderResult :=
  { success := true, status := "succeeded", raw_response := "rs", error := "" }

/-- A provider confirm result reporting failure. -/
def confirmFailed : ProviderResult :=
  { success := false, status := "", raw_response := "rf", error := "declined" }

/-- A duplicate `payment_intent.succeeded` webhook event for `pi_1`. -/
def whSucceeded : WebhookResult :=
  { success := true, event_type := "payment_intent.succeeded",
    data_id := "pi_1", data := "r1", error_message := "" }

/-- A one-product database. -/
def sampleDB : DB :=
  { products := [sampleProduct], orders := [], order_items := [],
    payments := [] }

/-- A one-order database whose order is `processing`. -/
def processingDB : DB :=
  { products := [], order_items := [], payments := [],
    orders := [{ id := 0, user_id := 7, total_amount := 0,
                 status := .processing, notes := "" }] }

/-- A cart entry: two units of product 1. -/
def sampleCart : CartItem :=
  { product_id := 1, quantity := 2 }

/-- A provider `create_payment` success. -/
def prOk : ProviderCreateResult :=
  { success := true, transaction_id := "pi_1", raw_response := "rr",
    error := "" }

/-- A provider `create_payment` failure. -/
def prFail : ProviderCreateResult :=
  { success := false, transaction_id := "", raw_response := "",
    error := "card declined" }

/-- A one-order database whose order is `shipped`. -/
def shippedDB : DB :=
  { products := [], order_items := [], payments := [],
    orders := [{ id := 0, user_id := 7, total_amount := 0,
                 status := .shipped, notes := "" }] }

/-- A cart entry referencing a product that does not exist. -/
def badCart : CartItem :=
  { product_id := 2, quantity := 1 }

/-- Decidable equality of `Except` results, used to evaluate the services
on concrete inputs. -/
instance {ε α : Type} [DecidableEq ε] [DecidableEq α] :
    DecidableEq (Except ε α) := fun a b =>
  match a, b with
  | .error e1, .error e2 =>
    if h : e1 = e2 then .isTrue (by rw [h])
    else .isFalse (fun hc => h (Except.error.inj hc))
  | .ok a1, .ok a2 =>
    if h : a1 = a2 then .isTrue (by rw [h])
    else .isFalse (fun hc => h (Except.ok.inj hc))
  | .error _, .ok _ => .isFalse (fun hc => Except.noConfusion hc)
  | .ok _, .error _ => .isFalse (fun hc => Except.noConfusion hc)

/-- C10. Stock mutations keep stock and status coupled. -/
theorem C10_stock_mutations (p : Product) (q : Int) :
    (q ≤ 0 → p.reduce_stock q = .error "Quantity must be positive" ∧
             p.increase_stock q = .error "Quantity must be positive") ∧
    (0 < q → p.stock < q → p.reduce_stock q = .error "Insufficient stock") ∧
    (0 < q → q ≤ p.stock →
      ∃ p', p.reduce_stock q = .ok p' ∧
        p'.stock = p.stock - q ∧ p'.id = p.id ∧ p'.price = p.price ∧
        (p'.stock = 0 → p'.status = .out_of_stock ∧ p'.is_available = false) ∧
        (p'.stock ≠ 0 → p'.status = p.status)) ∧
    (0 < q → p.status = .out_of_stock →
      ∃ p', p.increase_stock q = .ok p' ∧
        p'.stock = p.stock + q ∧ p'.status = .active) := by
  refine ⟨fun hq => ?_, fun hq hs => ?_, fun hq hs => ?_, fun hq hs => ?_⟩
  · constructor
    · simp [Product.reduce_stock, hq]
    · simp [Product.increase_stock, hq]
  · simp [Product.reduce_stock, hs, not_le.mpr hq]
  · refine ⟨{ p with
        stock := p.stock - q,
        status := if p.stock - q = 0 then .out_of_stock else p.status }, ?_, rfl, rfl, rfl,
        fun h0 => ?_, fun h0 => ?_⟩
    · simp [Product.reduce_stock, not_le.mpr hq, not_lt.mpr hs]
    · have h0' : p.stock - q = 0 := h0
      simp [Product.is_available, h0']
    · have h0' : ¬ p.stock - q = 0 := h0
      simp [h0']
  · refine ⟨{ p with stock := p.stock + q, status := .active }, ?_, rfl, rfl⟩
    simp [Product.increase_stock, not_le.mpr hq, hs]

/-- Witness for C10 at concrete products and quantities. -/
theorem C10_stock_mutations_witness :
    (({ id := 1, price := 100, stock := 2, status := .active } : Product).reduce_stock 0
        = .error "Quantity must be positive" ∧
     ({ id := 1, price := 100, stock := 2, status := .active } : Product).increase_stock 0
        = .error "Quantity must be positive") ∧
    ({ id := 1, price := 100, stock := 2, status := .active } : Product).reduce_stock 3
        = .error "Insufficient stock" ∧
    (∃ p', ({ id := 1, price := 100, stock := 2, status := .active } : Product).reduce_stock 2
        = .ok p' ∧
        p'.stock = 2 - 2 ∧ p'.id = 1 ∧ p'.price = 100 ∧
        (p'.stock = 0 → p'.status = .out_of_stock ∧ p'.is_available = false) ∧
        (p'.stock ≠ 0 → p'.status = .active)) ∧
    (∃ p', ({ id := 2, price := 50, stock := 0, status := .out_of_stock } : Product).increase_stock 4
        = .ok p' ∧ p'.stock = 0 + 4 ∧ p'.status = .active) :=
  ⟨(C10_stock_mutations { id := 1, price := 100, stock := 2, status := .active } 0).1 (by decide),
   (C10_stock_mutations { id := 1, price := 100, stock := 2, status := .active } 3).2.1
     (by decide) (by decide),
   (C10_stock_mutations { id := 1, price := 100, stock := 2, status := .active } 2).2.2.1
     (by decide) (by decide),
   (C10_stock_mutations { id := 2, price := 50, stock := 0, status := .out_of_stock } 4).2.2.2
     (by decide) (by decide)⟩

/-! ## Helper lemmas about the table primitives -/

theorem findProduct_some_id {ps : List Product} {pid : Nat} {p : Product}
    (h : findProduct ps pid = some p) : p.id = pid := by
  have := List.find?_some h
  simpa using this

theorem findOrder_some_id {os : List Order} {oid : Nat} {o : Order}
    (h : findOrder os oid = some o) : o.id = oid := by
  have := List.find?_some h
  simpa using this

theorem findProduct_updateProduct (ps : List Product) (q : Product) (pid : Nat) :
    findProduct (updateProduct ps q) pid =
      (findProduct ps pid).map (fun p => if p.id == q.id then q else p) := by
  induction ps with
  | nil => rfl
  | cons a t ih =>
    have hfid : (if (a.id == q.id) = true then q else a).id = a.id := by
      by_cases h : a.id = q.id <;> simp [h]
    simp only [updateProduct, List.map_cons] at ih ⊢
    by_cases hap : a.id = pid
    · have h1 : ((fun p : Product => p.id == pid) a) = true := by simp [hap]
      have h2 : ((fun p : Product => p.id == pid)
          (if (a.id == q.id) = true then q else a)) = true := by
        simp only [hfid]; simp [hap]
      unfold findProduct
      rw [List.find?_cons_of_pos (p := fun p : Product => p.id == pid) _ h2,
          List.find?_cons_of_pos (p := fun p : Product => p.id == pid) _ h1]
      rfl
    · have h1 : ¬ ((fun p : Product => p.id == pid) a) = true := by simp [hap]
      have h2 : ¬ ((fun p : Product => p.id == pid)
          (if (a.id == q.id) = true then q else a)) = true := by
        simp only [hfid]; simp [hap]
      unfold findProduct at ih ⊢
      rw [List.find?_cons_of_neg (p := fun p : Product => p.id == pid) _ h2,
          List.find?_cons_of_neg (p := fun p : Product => p.id == pid) _ h1]
      exact ih

theorem findOrder_updateOrder (os : List Order) (q : Order) (oid : Nat) :
    findOrder (updateOrder os q) oid =
      (findOrder os oid).map (fun o => if o.id == q.id then q else o) := by
  induction os with
  | nil => rfl
  | cons a t ih =>
    have hfid : (if (a.id == q.id) = true then q else a).id = a.id := by
      by_cases h : a.id = q.id <;> simp [h]
    simp only [updateOrder, List.map_cons] at ih ⊢
    by_cases hap : a.id = oid
    · have h1 : ((fun o : Order => o.id == oid) a) = true := by simp [hap]
      have h2 : ((fun o : Order => o.id == oid)
          (if (a.id == q.id) = true then q else a)) = true := by
        simp only [hfid]; simp [hap]
      unfold findOrder
      rw [List.find?_cons_of_pos (p := fun o : Order => o.id == oid) _ h2,
          List.find?_cons_of_pos (p := fun o : Order => o.id == oid) _ h1]
      rfl
    · have h1 : ¬ ((fun o : Order => o.id == oid) a) = true := by simp [hap]
      have h2 : ¬ ((fun o : Order => o.id == oid)
          (if (a.id == q.id) = true then q else a)) = true := by
        simp only [hfid]; simp [hap]
      unfold findOrder at ih ⊢
      rw [List.find?_cons_of_neg (p := fun o : Order => o.id == oid) _ h2,
          List.find?_cons_of_neg (p := fun o : Order => o.id == oid) _ h1]
      exact ih

theorem findProduct_updateProduct_ne {ps : List Product} {q : Product} {pid : Nat}
    (h : pid ≠ q.id) : findProduct (updateProduct ps q) pid = findProduct ps pid := by
  rw [findProduct_updateProduct]
  cases hf : findProduct ps pid with
  | none => rfl
  | some p =>
    have hid : p.id = pid := findProduct_some_id hf
    have hb : ¬ p.id = q.id := by rw [hid]; exact h
    simp [hb]

theorem findProduct_updateProduct_self {ps : List Product} {q : Product} {p : Product}
    (h : findProduct ps q.id = some p) :
    findProduct (updateProduct ps q) q.id = some q := by
  rw [findProduct_updateProduct, h]
  have hid : p.id = q.id := findProduct_some_id h
  simp [hid]

theorem findProduct_updateProduct_isSome {ps : List Product} {q : Product} {pid : Nat}
    (h : (findProduct ps pid).isSome) :
    (findProduct (updateProduct ps q) pid).isSome := by
  rw [findProduct_updateProduct]
  cases hf : findProduct ps pid with
  | none => rw [hf] at h; simp at h
  | some p => simp

theorem findOrder_updateOrder_self {l : List Order} {q : Order} {o : Order}
    (h : findOrder l q.id = some o) :
    findOrder (updateOrder l q) q.id = some q := by
  rw [findOrder_updateOrder, h]
  have hid : o.id = q.id := findOrder_some_id h
  simp [hid]

theorem calculate_total_eq_sum (its : List OrderItem) :
    Order.calculate_total its = (its.map OrderItem.subtotal).sum := by
  have key : ∀ (l : List OrderItem) (init : Int),
      l.foldl (fun total it => total + it.subtotal) init =
        init + (l.map OrderItem.subtotal).sum := by
    intro l
    induction l with
    | nil => intro init; simp
    | cons a t ih =>
      intro init
      simp only [List.foldl_cons, List.map_cons, List.sum_cons, ih]
      ring
  simpa using key its 0

theorem itemsOfOrder_append (l1 l2 : List OrderItem) (oid : Nat) :
    itemsOfOrder (l1 ++ l2) oid = itemsOfOrder l1 oid ++ itemsOfOrder l2 oid := by
  simp [itemsOfOrder, List.filter_append]

/-! ## Specification of the stock loops -/

theorem reduce_stock_loop_spec (its : List OrderItem) (ps : List Product)
    (Hnd : (its.map (fun it => it.product_id)).Nodup)
    (Hv : ∀ it ∈ its, ∃ p, findProduct ps it.product_id = some p ∧
            1 ≤ it.quantity ∧ it.quantity ≤ p.stock) :
    (reduce_stock_loop its ps).2 = none ∧
    (∀ it ∈ its, stockOf (reduce_stock_loop its ps).1 it.product_id =
        (stockOf ps it.product_id).map (fun s => s - it.quantity)) ∧
    (∀ pid, pid ∉ its.map (fun it => it.product_id) →
        findProduct (reduce_stock_loop its ps).1 pid = findProduct ps pid) := by
  induction its generalizing ps with
  | nil => exact ⟨rfl, by simp, fun pid _ => rfl⟩
  | cons it rest ihr =>
    obtain ⟨p, hp, hq1, hqs⟩ := Hv it (by simp)
    have hpid : p.id = it.product_id := findProduct_some_id hp
    have hred : p.reduce_stock it.quantity = .ok
        { p with stock := p.stock - it.quantity,
                 status := if p.stock - it.quantity = 0 then .out_of_stock
                           else p.status } := by
      simp only [Product.reduce_stock]
      rw [if_neg (by omega), if_neg (by omega)]
    set p' : Product :=
      { p with stock := p.stock - it.quantity,
               status := if p.stock - it.quantity = 0 then .out_of_stock
                         else p.status } with hp'
    have hstep : reduce_stock_loop (it :: rest) ps =
        reduce_stock_loop rest (updateProduct ps p') := by
      simp only [reduce_stock_loop, hp, hred]
    have hnd1 : it.product_id ∉ rest.map (fun x => x.product_id) ∧
        (rest.map (fun x => x.product_id)).Nodup := by
      rw [List.map_cons, List.nodup_cons] at Hnd
      exact Hnd
    have hnd' := hnd1
    have hmemne : ∀ it' ∈ rest, it'.product_id ≠ it.product_id := by
      intro it' hmem heq
      apply hnd'.1
      rw [← heq]
      exact List.mem_map_of_mem (fun x => x.product_id) hmem
    have hv' : ∀ it' ∈ rest, ∃ q, findProduct (updateProduct ps p') it'.product_id = some q ∧
        1 ≤ it'.quantity ∧ it'.quantity ≤ q.stock := by
      intro it' hmem
      obtain ⟨q, hq, h1, h2⟩ := Hv it' (List.mem_cons_of_mem _ hmem)
      refine ⟨q, ?_, h1, h2⟩
      rw [findProduct_updateProduct_ne (by
        show it'.product_id ≠ p'.id
        have : p'.id = it.product_id := hpid
        rw [this]
        exact hmemne it' hmem)]
      exact hq
    obtain ⟨ihe, ihs, ihf⟩ := ihr (updateProduct ps p') hnd'.2 hv'
    refine ⟨?_, ?_, ?_⟩
    · rw [hstep]; exact ihe
    · intro x hx
      rcases List.mem_cons.mp hx with hx | hx
      · subst hx
        rw [hstep]
        have hfr : findProduct (reduce_stock_loop rest (updateProduct ps p')).1
            x.product_id = findProduct (updateProduct ps p') x.product_id := by
          apply ihf
          intro hmem
          obtain ⟨y, hy, hyid⟩ := List.mem_map.mp hmem
          exact hmemne y hy hyid
        have hself : findProduct (updateProduct ps p') x.product_id = some p' := by
          have : findProduct ps p'.id = some p := by
            have : p'.id = x.product_id := hpid
            rw [this]; exact hp
          have h2 := findProduct_updateProduct_self this
          have : p'.id = x.product_id := hpid
          rw [this] at h2; exact h2
        unfold stockOf
        rw [hfr, hself, hp]
        rfl
      · rw [hstep]
        have h1 := ihs x hx
        have h2 : stockOf (updateProduct ps p') x.product_id = stockOf ps x.product_id := by
          unfold stockOf
          rw [findProduct_updateProduct_ne (by
            show x.product_id ≠ p'.id
            have : p'.id = it.product_id := hpid
            rw [this]; exact hmemne x hx)]
        rw [h1, h2]
    · intro pid hpid2
      have hne1 : pid ≠ it.product_id := by
        intro heq
        exact hpid2 (by simp [heq])
      have hnotin : pid ∉ rest.map (fun x => x.product_id) := by
        intro hmem
        exact hpid2 (by simp only [List.map_cons, List.mem_cons]; exact Or.inr hmem)
      rw [hstep, ihf pid hnotin,
          findProduct_updateProduct_ne (by
            show pid ≠ p'.id
            have : p'.id = it.product_id := hpid
            rw [this]; exact hne1)]

theorem increase_stock_loop_spec (its : List OrderItem) (ps : List Product)
    (Hnd : (its.map (fun it => it.product_id)).Nodup)
    (Hv : ∀ it ∈ its, 1 ≤ it.quantity ∧ (findProduct ps it.product_id).isSome) :
    (increase_stock_loop its ps).2 = none ∧
    (∀ it ∈ its, stockOf (increase_stock_loop its ps).1 it.product_id =
        (stockOf ps it.product_id).map (fun s => s + it.quantity)) ∧
    (∀ pid, pid ∉ its.map (fun it => it.product_id) →
        findProduct (increase_stock_loop its ps).1 pid = findProduct ps pid) := by
  induction its generalizing ps with
  | nil => exact ⟨rfl, by simp, fun pid _ => rfl⟩
  | cons it rest ihr =>
    obtain ⟨hq1, hsome⟩ := Hv it (by simp)
    obtain ⟨p, hp⟩ := Option.isSome_iff_exists.mp hsome
    have hpid : p.id = it.product_id := findProduct_some_id hp
    have hinc : p.increase_stock it.quantity = .ok
        { p with stock := p.stock + it.quantity,
                 status := if p.status = .out_of_stock then .active
                           else p.status } := by
      simp only [Product.increase_stock]
      rw [if_neg (by omega)]
    set p' : Product :=
      { p with stock := p.stock + it.quantity,
               status := if p.status = .out_of_stock then .active
                         else p.status } with hp'
    have hstep : increase_stock_loop (it :: rest) ps =
        increase_stock_loop rest (updateProduct ps p') := by
      simp only [increase_stock_loop, hp, hinc]
    have hnd1 : it.product_id ∉ rest.map (fun x => x.product_id) ∧
        (rest.map (fun x => x.product_id)).Nodup := by
      rw [List.map_cons, List.nodup_cons] at Hnd
      exact Hnd
    have hmemne : ∀ it' ∈ rest, it'.product_id ≠ it.product_id := by
      intro it' hmem heq
      apply hnd1.1
      rw [← heq]
      exact List.mem_map_of_mem (fun x => x.product_id) hmem
    have hv' : ∀ it' ∈ rest, 1 ≤ it'.quantity ∧
        (findProduct (updateProduct ps p') it'.product_id).isSome := by
      intro it' hmem
      obtain ⟨h1, h2⟩ := Hv it' (List.mem_cons_of_mem _ hmem)
      refine ⟨h1, ?_⟩
      rw [findProduct_updateProduct_ne (by
        show it'.product_id ≠ p'.id
        have hpe : p'.id = it.product_id := hpid
        rw [hpe]
        exact hmemne it' hmem)]
      exact h2
    obtain ⟨ihe, ihs, ihf⟩ := ihr (updateProduct ps p') hnd1.2 hv'
    refine ⟨?_, ?_, ?_⟩
    · rw [hstep]; exact ihe
    · intro x hx
      rcases List.mem_cons.mp hx with hx | hx
      · subst hx
        rw [hstep]
        have hfr : findProduct (increase_stock_loop rest (updateProduct ps p')).1
            x.product_id = findProduct (updateProduct ps p') x.product_id := by
          apply ihf
          intro hmem
          obtain ⟨y, hy, hyid⟩ := List.mem_map.mp hmem
          exact hmemne y hy hyid
        have hself : findProduct (updateProduct ps p') x.product_id = some p' := by
          have hq : findProduct ps p'.id = some p := by
            have hpe : p'.id = x.product_id := hpid
            rw [hpe]; exact hp
          have h2 := findProduct_updateProduct_self hq
          have hpe : p'.id = x.product_id := hpid
          rw [hpe] at h2; exact h2
        unfold stockOf
        rw [hfr, hself, hp]
        rfl
      · rw [hstep]
        have h1 := ihs x hx
        have h2 : stockOf (updateProduct ps p') x.product_id = stockOf ps x.product_id := by
          unfold stockOf
          rw [findProduct_updateProduct_ne (by
            show x.product_id ≠ p'.id
            have hpe : p'.id = it.product_id := hpid
            rw [hpe]; exact hmemne x hx)]
        rw [h1, h2]
    · intro pid hpid2
      have hne1 : pid ≠ it.product_id := by
        intro heq
        exact hpid2 (by simp [heq])
      have hnotin : pid ∉ rest.map (fun x => x.product_id) := by
        intro hmem
        exact hpid2 (by simp only [List.map_cons, List.mem_cons]; exact Or.inr hmem)
      rw [hstep, ihf pid hnotin,
          findProduct_updateProduct_ne (by
            show pid ≠ p'.id
            have hpe : p'.id = it.product_id := hpid
            rw [hpe]; exact hne1)]

/-! ## Claim theorems on the order model -/

/-- C3. `mark_as_paid` succeeds only from `pending`; a second call on the
same (now `paid`) order is rejected with the invalid-transition error and
has no side effect, so across both calls each item's product stock is
decremented exactly once. -/
theorem C3_mark_as_paid_second_call_rejected (o : Order) (its : List OrderItem)
    (ps : List Product)
    (Hs : o.status = .pending)
    (Hnd : (its.map (fun it => it.product_id)).Nodup)
    (Hv : ∀ it ∈ its, ∃ p, findProduct ps it.product_id = some p ∧
            1 ≤ it.quantity ∧ it.quantity ≤ p.stock) :
    (o.mark_as_paid its ps).2.2 = none ∧
    (o.mark_as_paid its ps).1.status = .paid ∧
    (∀ it ∈ its, stockOf (o.mark_as_paid its ps).2.1 it.product_id =
        (stockOf ps it.product_id).map (fun s => s - it.quantity)) ∧
    (o.mark_as_paid its ps).1.mark_as_paid its (o.mark_as_paid its ps).2.1 =
      ((o.mark_as_paid its ps).1, (o.mark_as_paid its ps).2.1,
        some "Cannot mark order as paid") ∧
    (∀ (x : Order) (l : List OrderItem) (q : List Product), x.status ≠ .pending →
      x.mark_as_paid l q = (x, q, some "Cannot mark order as paid")) := by
  obtain ⟨he, hst, hfr⟩ := reduce_stock_loop_spec its ps Hnd Hv
  have h1 : o.mark_as_paid its ps =
      ({ o with status := OrderStatus.paid }, reduce_stock_loop its ps) := by
    unfold Order.mark_as_paid
    rw [if_neg (by simp [Hs])]
  refine ⟨by rw [h1]; exact he, by rw [h1], ?_, ?_, ?_⟩
  · intro it hit
    rw [h1]
    exact hst it hit
  · rw [h1]
    unfold Order.mark_as_paid
    rw [if_pos (by simp)]
  · intro x l q hx
    unfold Order.mark_as_paid
    rw [if_pos hx]

/-- Witness for C3: one item of quantity 2 against stock 10. -/
theorem C3_mark_as_paid_second_call_rejected_witness :
    (sampleOrder.mark_as_paid [sampleItem] [sampleProduct]).2.2 = none ∧
    (sampleOrder.mark_as_paid [sampleItem] [sampleProduct]).1.status = .paid ∧
    stockOf (sampleOrder.mark_as_paid [sampleItem] [sampleProduct]).2.1
        sampleItem.product_id =
      (stockOf [sampleProduct] sampleItem.product_id).map
        (fun s => s - sampleItem.quantity) ∧
    (sampleOrder.mark_as_paid [sampleItem] [sampleProduct]).1.mark_as_paid
        [sampleItem] (sampleOrder.mark_as_paid [sampleItem] [sampleProduct]).2.1 =
      ((sampleOrder.mark_as_paid [sampleItem] [sampleProduct]).1,
       (sampleOrder.mark_as_paid [sampleItem] [sampleProduct]).2.1,
       some "Cannot mark order as paid") ∧
    ({ sampleOrder with status := .paid } : Order).mark_as_paid [sampleItem]
        [sampleProduct] =
      ({ sampleOrder with status := .paid }, [sampleProduct],
       some "Cannot mark order as paid") :=
  have h := C3_mark_as_paid_second_call_rejected sampleOrder [sampleItem]
    [sampleProduct] rfl (by decide)
    (by
      intro it hit
      simp only [List.mem_singleton] at hit
      subst hit
      exact ⟨sampleProduct, rfl, by decide, by decide⟩)
  ⟨h.1, h.2.1, h.2.2.1 sampleItem (by simp), h.2.2.2.1,
   h.2.2.2.2 { sampleOrder with status := .paid } [sampleItem] [sampleProduct]
     (by decide)⟩

/-- C4. When `mark_as_paid` runs on a pending order and a stock decrement
fails, the error escapes `mark_as_paid` only after the status save, is
caught inside `Payment.mark_as_success`, and the order still ends `paid`
(with the payment `success`). -/
theorem C4_order_stays_paid_on_stock_failure (pay : Payment) (o : Order)
    (its : List OrderItem) (ps : List Product) (now : Nat) (td : Option String)
    (Hs : o.status = .pending)
    (Hfail : (reduce_stock_loop its ps).2 ≠ none) :
    (o.mark_as_paid its ps).2.2 ≠ none ∧
    (o.mark_as_paid its ps).1.status = .paid ∧
    (pay.mark_as_success now td o its ps).1.status = .success ∧
    (pay.mark_as_success now td o its ps).2.1.status = .paid := by
  have h1 : o.mark_as_paid its ps =
      ({ o with status := OrderStatus.paid }, reduce_stock_loop its ps) := by
    unfold Order.mark_as_paid
    rw [if_neg (by simp [Hs])]
  have h2 : pay.mark_as_success now td o its ps =
      ({ pay with status := PaymentStatus.success, completed_at := some now,
                  raw_response := td.getD pay.raw_response },
       (o.mark_as_paid its ps).1, (o.mark_as_paid its ps).2.1) := rfl
  refine ⟨by rw [h1]; exact Hfail, by rw [h1], by rw [h2], ?_⟩
  rw [h2, h1]

/-- Witness for C4: a single item of quantity 5 against stock 2. -/
theorem C4_order_stays_paid_on_stock_failure_witness :
    (sampleOrder.mark_as_paid [bigItem] [lowStockProduct]).2.2 ≠ none ∧
    (sampleOrder.mark_as_paid [bigItem] [lowStockProduct]).1.status = .paid ∧
    (samplePayment.mark_as_success 9 none sampleOrder [bigItem]
        [lowStockProduct]).1.status = .success ∧
    (samplePayment.mark_as_success 9 none sampleOrder [bigItem]
        [lowStockProduct]).2.1.status = .paid :=
  C4_order_stays_paid_on_stock_failure samplePayment sampleOrder [bigItem]
    [lowStockProduct] 9 none rfl (by decide)

/-- C9. `cancel` on a `paid` order restores each item's product stock by
exactly the item quantity (running the restore loop before the status is
saved as `cancelled`) and touches no other product; on a `pending` order it
changes no product at all. -/
theorem C9_cancel_restores_stock (o : Order) (its : List OrderItem)
    (ps : List Product)
    (Hnd : (its.map (fun it => it.product_id)).Nodup)
    (Hv : ∀ it ∈ its, 1 ≤ it.quantity ∧ (findProduct ps it.product_id).isSome) :
    (o.status = .paid →
        (o.cancel its ps).2.2 = none ∧
        (o.cancel its ps).1.status = .cancelled ∧
        (∀ it ∈ its, stockOf (o.cancel its ps).2.1 it.product_id =
            (stockOf ps it.product_id).map (fun s => s + it.quantity)) ∧
        (∀ pid, pid ∉ its.map (fun it => it.product_id) →
            findProduct (o.cancel its ps).2.1 pid = findProduct ps pid)) ∧
    (o.status = .pending →
        o.cancel its ps = ({ o with status := .cancelled }, ps, none)) := by
  obtain ⟨he, hst, hfr⟩ := increase_stock_loop_spec its ps Hnd Hv
  constructor
  · intro hpaid
    have hc : o.cancel its ps =
        ({ o with status := OrderStatus.cancelled },
         (increase_stock_loop its ps).1, none) := by
      unfold Order.cancel
      rw [if_neg (by simp [hpaid])]
      rw [if_pos hpaid]
      have hpair : increase_stock_loop its ps = ((increase_stock_loop its ps).1, none) := by
        rw [← he]
      rw [hpair]
    refine ⟨by rw [hc], by rw [hc], ?_, ?_⟩
    · intro it hit
      rw [hc]
      exact hst it hit
    · intro pid hpid
      rw [hc]
      exact hfr pid hpid
  · intro hpend
    unfold Order.cancel
    rw [if_neg (by simp [hpend])]
    rw [if_neg (by simp [hpend])]

/-- Witness for C9: the paid branch restores stock 10 → 12 for the sample
item; the pending branch leaves the table untouched. -/
theorem C9_cancel_restores_stock_witness :
    (({ sampleOrder with status := .paid } : Order).cancel [sampleItem]
        [sampleProduct]).2.2 = none ∧
    (({ sampleOrder with status := .paid } : Order).cancel [sampleItem]
        [sampleProduct]).1.status = .cancelled ∧
    stockOf (({ sampleOrder with status := .paid } : Order).cancel [sampleItem]
        [sampleProduct]).2.1 sampleItem.product_id =
      (stockOf [sampleProduct] sampleItem.product_id).map
        (fun s => s + sampleItem.quantity) ∧
    (sampleOrder.cancel [sampleItem] [sampleProduct] =
        ({ sampleOrder with status := .cancelled }, [sampleProduct], none)) :=
  have h1 := C9_cancel_restores_stock { sampleOrder with status := .paid }
    [sampleItem] [sampleProduct] (by decide)
    (by
      intro it hit
      simp only [List.mem_singleton] at hit
      subst hit
      exact ⟨by decide, by decide⟩)
  have h2 := C9_cancel_restores_stock sampleOrder [sampleItem] [sampleProduct]
    (by decide)
    (by
      intro it hit
      simp only [List.mem_singleton] at hit
      subst hit
      exact ⟨by decide, by decide⟩)
  ⟨(h1.1 rfl).1, (h1.1 rfl).2.1, (h1.1 rfl).2.2.1 sampleItem (by simp),
   h2.2 rfl⟩

/-! ## Claim theorems on the payment views -/

/-- C5 (amended). For a payment in `failed`, `cancelled` or `refunded`, the
user-confirm and refund operations are rejected and leave the state
untouched; the status poll and the webhook, however, can still move such a
payment (see the counterexample), so these states are not terminal. -/
theorem C5_terminal_for_confirm_and_refund (ctx : PayCtx)
    (h : ctx.payment.status = .failed ∨ ctx.payment.status = .cancelled ∨
         ctx.payment.status = .refunded) :
    (∀ res now, confirm_payment_view ctx res now = (ctx, false)) ∧
    (∀ res reason, refund_payment_view ctx res reason = (ctx, false)) := by
  have hpend : ctx.payment.is_pending = false := by
    rcases h with h | h | h <;> simp [Payment.is_pending, h]
  have href : ctx.payment.can_be_refunded = false := by
    rcases h with h | h | h <;> simp [Payment.can_be_refunded, h]
  constructor
  · intro res now
    unfold confirm_payment_view
    rw [hpend]
    rfl
  · intro res reason
    unfold refund_payment_view
    rw [href]
    rfl

/-- Witness for C5 at the concrete failed payment. -/
theorem C5_terminal_for_confirm_and_refund_witness :
    confirm_payment_view failedCtx pollSucceeded 6 = (failedCtx, false) ∧
    refund_payment_view failedCtx pollSucceeded "dup" = (failedCtx, false) :=
  ⟨(C5_terminal_for_confirm_and_refund failedCtx (Or.inl rfl)).1 pollSucceeded 6,
   (C5_terminal_for_confirm_and_refund failedCtx (Or.inl rfl)).2 pollSucceeded "dup"⟩

/-- Counterexample to C5 as stated: a status poll on a `failed` payment
whose provider reports `succeeded` drives the payment back to `success` —
`failed` is not terminal. -/
theorem C5_counterexample_poll_revives_failed :
    failedCtx.payment.status = .failed ∧
    (payment_status_view failedCtx pollSucceeded 5).1.payment.status = .success := by
  decide

/-- `getLast?` of a snoc list. -/
theorem getLast?_append_singleton {α : Type} (l : List α) (a : α) :
    (l ++ [a]).getLast? = some a := by
  induction l with
  | nil => rfl
  | cons b t ih =>
    rw [List.cons_append, List.getLast?_cons, ih]
    cases t <;> rfl

/-- Helper for C2: a successful checkout body appends a payment row whose
`completed_at` is null and whose status is `pending`. -/
theorem checkout_body_ok_payment (db : DB) (uid : Nat) (items : List CartItem)
    (prov notes : String) (pr : ProviderCreateResult) (db' : DB) (r : CheckoutOk)
    (h : CheckoutService.create_order_and_initiate_payment_body db uid items
          prov notes pr = (db', .ok r)) :
    ∃ pay : Payment, db'.payments.getLast? = some pay ∧
      pay.completed_at = none ∧ pay.status = .pending := by
  simp only [CheckoutService.create_order_and_initiate_payment_body] at h
  repeat' split at h
  all_goals simp only [Prod.mk.injEq, Except.ok.injEq] at h
  all_goals try exact absurd h.2 (by simp)
  all_goals
    obtain ⟨rfl, rfl⟩ := h
    exact ⟨_, getLast?_append_singleton _ _, rfl, rfl⟩

/-- C2 (amended). `completed_at` is null when the payment row is created by
checkout and is stamped with the current time by *every* terminal marking.
Re-entering `success` is not an error, but it is not always a no-op either:
the stripe webhook path calls `mark_as_success` with no status guard, and
`mark_as_success` overwrites `completed_at` (and the raw response) each
time it runs, so a duplicate webhook re-stamps the record.  The other two
channels do guard re-entry: the user-confirm path rejects any non-pending
payment, and the status poll skips `mark_as_success` when the payment is
already `success`, leaving the record untouched. -/
theorem C2_completed_at_stamped_each_marking :
    (∀ db uid items prov notes pr db' r,
        CheckoutService.create_order_and_initiate_payment db uid items prov
          notes pr = (db', .ok r) →
        ∃ pay : Payment, db'.payments.getLast? = some pay ∧
          pay.completed_at = none ∧ pay.status = .pending) ∧
    (∀ (pay : Payment) (now : Nat) (td : Option String) (o : Order)
        (its : List OrderItem) (ps : List Product),
        ((pay.mark_as_success now td o its ps).1.status = .success ∧
         (pay.mark_as_success now td o its ps).1.completed_at = some now)) ∧
    (∀ (pay : Payment) (now : Nat) (em : String) (td : Option String),
        ((pay.mark_as_failed now em td).status = .failed ∧
         (pay.mark_as_failed now em td).completed_at = some now)) ∧
    (∀ (ctx : PayCtx) (res : ProviderResult) (now : Nat),
        ctx.payment.is_pending = false →
        confirm_payment_view ctx res now = (ctx, false)) ∧
    (∀ (ctx : PayCtx) (res : ProviderResult) (now : Nat),
        ctx.payment.status = .success →
        ["succeeded", "completed", "success"].contains (pyLower res.status)
          = true →
        (payment_status_view ctx res now).1 = ctx) := by
  refine ⟨?_, ?_, ?_, ?_, ?_⟩
  · intro db uid items prov notes pr db' r h
    simp only [CheckoutService.create_order_and_initiate_payment, atomically] at h
    rcases hb : CheckoutService.create_order_and_initiate_payment_body db uid
        items prov notes pr with ⟨dbb, rb⟩
    rw [hb] at h
    cases rb with
    | error e => simp at h
    | ok a =>
      simp only [Prod.mk.injEq, Except.ok.injEq] at h
      obtain ⟨rfl, rfl⟩ := h
      exact checkout_body_ok_payment db uid items prov notes pr dbb a hb
  · intro pay now td o its ps
    exact ⟨rfl, rfl⟩
  · intro pay now em td
    exact ⟨rfl, rfl⟩
  · intro ctx res now hpend
    unfold confirm_payment_view
    rw [hpend]
    rfl
  · intro ctx res now hs hcont
    cases hv : valid_provider ctx.payment.provider with
    | false => simp [payment_status_view, hv]
    | true =>
      cases hrs : res.success with
      | false => simp [payment_status_view, hv, hrs]
      | true =>
        simp [payment_status_view, hv, hrs, hs]
        have hcont' : pyLower res.status = "succeeded" ∨
            pyLower res.status = "completed" ∨
            pyLower res.status = "success" := by
          simpa using hcont
        rw [if_pos hcont']

/-- Witness for C2 at concrete inputs: a fresh checkout payment has a null
`completed_at`; markings stamp it; the confirm view rejects a non-pending
payment; a poll reporting success on an already-successful payment leaves
the record untouched. -/
theorem C2_completed_at_stamped_each_marking_witness :
    (∃ pay : Payment,
        (CheckoutService.create_order_and_initiate_payment sampleDB 7
            [sampleCart] "stripe" "" prOk).1.payments.getLast? = some pay ∧
        pay.completed_at = none ∧ pay.status = .pending) ∧
    ((successPayment.mark_as_success 2 (some "r1") sampleOrder [] []).1.status
        = .success ∧
     (successPayment.mark_as_success 2 (some "r1") sampleOrder [] []).1.completed_at
        = some 2) ∧
    ((samplePayment.mark_as_failed 4 "declined" none).status = .failed ∧
     (samplePayment.mark_as_failed 4 "declined" none).completed_at = some 4) ∧
    confirm_payment_view failedCtx pollSucceeded 6 = (failedCtx, false) ∧
    (payment_status_view successCtx pollSucceeded 9).1 = successCtx :=
  ⟨C2_completed_at_stamped_each_marking.1 sampleDB 7 [sampleCart] "stripe" ""
      prOk
      (CheckoutService.create_order_and_initiate_payment sampleDB 7
        [sampleCart] "stripe" "" prOk).1
      { order_id := 0, payment_id := 0, transaction_id := "pi_1",
        amount := 100, currency := "USD", provider := "stripe" }
      rfl,
   C2_completed_at_stamped_each_marking.2.1 successPayment 2 (some "r1")
     sampleOrder [] [],
   C2_completed_at_stamped_each_marking.2.2.1 samplePayment 4 "declined" none,
   C2_completed_at_stamped_each_marking.2.2.2.1 failedCtx pollSucceeded 6
     (by decide),
   C2_completed_at_stamped_each_marking.2.2.2.2 successCtx pollSucceeded 9
     (by decide) (by decide)⟩

/-- Counterexample to C2 as stated: a duplicate `payment_intent.succeeded`
webhook on an already-successful payment re-runs `mark_as_success`, which
overwrites the previously set `completed_at` (1 becomes 2) and the raw
response — re-entering `success` is not a no-op on the payment record. -/
theorem C2_counterexample_webhook_overwrites_completed_at :
    successCtx.payment.status = .success ∧
    successCtx.payment.completed_at = some 1 ∧
    (stripe_webhook_view successCtx whSucceeded 2).1.payment.completed_at
      = some 2 ∧
    (stripe_webhook_view successCtx whSucceeded 2).1.payment
      ≠ successCtx.payment := by
  decide

/-! ## Claim theorems on the order services -/

/-- C8 (amended). `cancel_order` rejects (leaving the database untouched)
exactly when the order is `shipped` or `delivered`; from every other status
— `pending`, `paid`, and also `processing` and `cancelled` — it succeeds
and saves the status as `cancelled`. -/
theorem C8_cancel_rejected_only_when_shipped_or_delivered (db : DB) (oid : Nat)
    (o : Order)
    (Hf : findOrder db.orders oid = some o)
    (Hnd : ((itemsOfOrder db.order_items oid).map (fun it => it.product_id)).Nodup)
    (Hv : ∀ it ∈ itemsOfOrder db.order_items oid,
        1 ≤ it.quantity ∧ (findProduct db.products it.product_id).isSome) :
    (o.status = .shipped ∨ o.status = .delivered →
        OrderService.cancel_order db oid = (db, .error "Cannot cancel order")) ∧
    (o.status ≠ .shipped → o.status ≠ .delivered →
        ∃ db', OrderService.cancel_order db oid =
            (db', .ok { o with status := .cancelled }) ∧
          findOrder db'.orders oid = some { o with status := .cancelled }) := by
  have hget : OrderService.get_order_details db oid = .ok o := by
    unfold OrderService.get_order_details
    rw [Hf]
  have hoid : o.id = oid := findOrder_some_id Hf
  constructor
  · intro hsd
    have hcan : o.cancel (itemsOfOrder db.order_items oid) db.products =
        (o, db.products, some "Cannot cancel order") := by
      unfold Order.cancel
      rw [if_pos hsd]
    simp only [OrderService.cancel_order, atomically,
      OrderService.cancel_order_body, hget, hcan]
  · intro hs hd
    have hns : ¬ (o.status = .shipped ∨ o.status = .delivered) := by
      rintro (h | h)
      · exact hs h
      · exact hd h
    by_cases hp : o.status = .paid
    · obtain ⟨he, _hst, _hfr⟩ :=
        increase_stock_loop_spec (itemsOfOrder db.order_items oid) db.products
          Hnd Hv
      have hpair : increase_stock_loop (itemsOfOrder db.order_items oid)
          db.products =
          ((increase_stock_loop (itemsOfOrder db.order_items oid)
              db.products).1, none) := by
        rw [← he]
      have hcan : o.cancel (itemsOfOrder db.order_items oid) db.products =
          ({ o with status := .cancelled },
           (increase_stock_loop (itemsOfOrder db.order_items oid)
              db.products).1, none) := by
        unfold Order.cancel
        rw [if_neg hns, if_pos hp, hpair]
      refine ⟨{ db with
          orders := updateOrder db.orders { o with status := .cancelled },
          products := (increase_stock_loop (itemsOfOrder db.order_items oid)
            db.products).1 }, ?_, ?_⟩
      · simp only [OrderService.cancel_order, atomically,
          OrderService.cancel_order_body, hget, hcan]
      · have : findOrder db.orders
            ({ o with status := OrderStatus.cancelled } : Order).id = some o := by
          simpa [hoid] using Hf
        have h2 := findOrder_updateOrder_self this
        simpa [hoid] using h2
    · have hcan : o.cancel (itemsOfOrder db.order_items oid) db.products =
          ({ o with status := .cancelled }, db.products, none) := by
        unfold Order.cancel
        rw [if_neg hns, if_neg hp]
      refine ⟨{ db with
          orders := updateOrder db.orders { o with status := .cancelled },
          products := db.products }, ?_, ?_⟩
      · simp only [OrderService.cancel_order, atomically,
          OrderService.cancel_order_body, hget, hcan]
      · have : findOrder db.orders
            ({ o with status := OrderStatus.cancelled } : Order).id = some o := by
          simpa [hoid] using Hf
        have h2 := findOrder_updateOrder_self this
        simpa [hoid] using h2

/-- Witness for C8: a shipped order is rejected; a processing order is
cancelled. -/
theorem C8_cancel_rejected_only_when_shipped_or_delivered_witness :
    OrderService.cancel_order shippedDB 0 =
      (shippedDB, .error "Cannot cancel order") ∧
    (∃ db', OrderService.cancel_order processingDB 0 =
        (db', .ok { id := 0, user_id := 7, total_amount := 0,
                    status := .cancelled, notes := "" }) ∧
      findOrder db'.orders 0 = some { id := 0, user_id := 7, total_amount := 0,
                                      status := .cancelled, notes := "" }) :=
  ⟨(C8_cancel_rejected_only_when_shipped_or_delivered shippedDB 0
      { id := 0, user_id := 7, total_amount := 0, status := .shipped,
        notes := "" } rfl (by decide) (by intro it hit; cases hit)).1
      (Or.inl rfl),
   (C8_cancel_rejected_only_when_shipped_or_delivered processingDB 0
      { id := 0, user_id := 7, total_amount := 0, status := .processing,
        notes := "" } rfl (by decide) (by intro it hit; cases hit)).2
      (by decide) (by decide)⟩

/-- Counterexample to C8 as stated: `cancel_order` on a `processing` order
does not fail with an invalid-transition error — it succeeds and rewrites
the order to `cancelled`. -/
theorem C8_counterexample_processing_cancel_succeeds :
    (∃ o, findOrder processingDB.orders 0 = some o ∧ o.status = .processing) ∧
    (OrderService.cancel_order processingDB 0).2 =
      .ok { id := 0, user_id := 7, total_amount := 0, status := .cancelled,
            notes := "" } ∧
    (OrderService.cancel_order processingDB 0).1 ≠ processingDB := by
  refine ⟨⟨{ id := 0, user_id := 7, total_amount := 0, status := .processing,
             notes := "" }, by decide, rfl⟩, by decide, by decide⟩

/-! ## Helper lemmas about item persistence and order totals -/

theorem save_order_item_products (db : DB) (it : OrderItem) :
    (db.save_order_item it).products = db.products := by
  unfold DB.save_order_item
  split <;> rfl


theorem save_order_item_payments (db : DB) (it : OrderItem) :
    (db.save_order_item it).payments = db.payments := by
  unfold DB.save_order_item
  split <;> rfl

theorem savedItem_fields (db : DB) (it : OrderItem) :
    (savedItem db it).order_id = it.order_id ∧
    (savedItem db it).product_id = it.product_id ∧
    (savedItem db it).quantity = it.quantity := by
  unfold savedItem
  exact ⟨rfl, rfl, rfl⟩

theorem savedItem_of_price (db : DB) (it : OrderItem) (p : Product)
    (hp : findProduct db.products it.product_id = some p)
    (hpr : it.price = p.price) :
    savedItem db it =
      { it with price := p.price, subtotal := it.quantity * p.price } := by
  unfold savedItem
  by_cases h0 : it.price = 0
  · rw [if_pos h0, hp]
    rfl
  · rw [if_neg h0, hpr]

theorem save_order_item_items (db : DB) (it : OrderItem) :
    (db.save_order_item it).order_items = db.order_items ++ [savedItem db it] := by
  unfold DB.save_order_item
  split <;> rfl

theorem save_order_item_inv (db : DB) (it : OrderItem) :
    OrderTotalInv (db.save_order_item it) it.order_id := by
  intro o2 hfind
  unfold DB.save_order_item at hfind ⊢
  rcases hf : findOrder db.orders it.order_id with _ | o
  · simp only [hf] at hfind ⊢
    cases hfind
  · simp only [hf] at hfind ⊢
    have hoid : o.id = it.order_id := findOrder_some_id hf
    have hself := findOrder_updateOrder_self (l := db.orders) (q :=
      { o with
          total_amount := Order.calculate_total
            (itemsOfOrder (db.order_items ++ [savedItem db it]) o.id) })
      (o := o) (by simpa [hoid] using hf)
    simp only [hoid] at hself hfind
    rw [hself] at hfind
    injection hfind with h2
    rw [← h2]

theorem save_order_item_presence (db : DB) (it : OrderItem) (x : Nat)
    (h : (findOrder db.orders x).isSome) :
    (findOrder (db.save_order_item it).orders x).isSome := by
  unfold DB.save_order_item
  rcases hf : findOrder db.orders it.order_id with _ | o
  · simpa only [hf] using h
  · simp only [hf]
    rw [findOrder_updateOrder]
    rcases hx : findOrder db.orders x with _ | y
    · rw [hx] at h
      cases h
    · simp

theorem delete_order_item_inv (db : DB) (it : OrderItem) :
    OrderTotalInv (db.delete_order_item it) it.order_id := by
  intro o2 hfind
  unfold DB.delete_order_item at hfind ⊢
  rcases hf : findOrder db.orders it.order_id with _ | o
  · simp only [hf] at hfind ⊢
    cases hfind
  · simp only [hf] at hfind ⊢
    have hoid : o.id = it.order_id := findOrder_some_id hf
    have hself := findOrder_updateOrder_self (l := db.orders) (q :=
      { o with
          total_amount := Order.calculate_total
            (itemsOfOrder (db.order_items.filter (fun x => x.id ≠ it.id))
              o.id) })
      (o := o) (by simpa [hoid] using hf)
    simp only [hoid] at hself hfind
    rw [hself] at hfind
    injection hfind with h2
    rw [← h2]

theorem itemsOfOrder_nil {its : List OrderItem} {oid : Nat}
    (h : ∀ it ∈ its, it.order_id ≠ oid) : itemsOfOrder its oid = [] := by
  unfold itemsOfOrder
  rw [List.filter_eq_nil_iff]
  intro a ha
  simp [h a ha]

theorem findOrder_append_new (l : List Order) (o : Order)
    (h : ∀ x ∈ l, x.id ≠ o.id) : findOrder (l ++ [o]) o.id = some o := by
  induction l with
  | nil =>
    unfold findOrder
    simp [List.find?]
  | cons a t ih =>
    unfold findOrder at ih ⊢
    rw [List.cons_append,
      List.find?_cons_of_neg _ (by simp [h a (by simp)])]
    exact ih (fun x hx => h x (by simp [hx]))

/-! ## Specification of the order-creation loop -/

theorem create_order_items_loop_spec (items : List CartItem) (db : DB)
    (oid : Nat)
    (Hv : ∀ ci ∈ items, validCartItem db.products ci = true) :
    (create_order_items_loop oid items db).2 = none ∧
    (create_order_items_loop oid items db).1.products = db.products ∧
    (create_order_items_loop oid items db).1.payments = db.payments ∧
    ((itemsOfOrder (create_order_items_loop oid items db).1.order_items
        oid).map (fun it => (it.product_id, it.quantity, it.subtotal)) =
      (itemsOfOrder db.order_items oid).map
        (fun it => (it.product_id, it.quantity, it.subtotal)) ++
      items.map (fun ci => (ci.product_id, ci.quantity,
        ci.quantity * priceOf db.products ci.product_id))) ∧
    (OrderTotalInv db oid →
      OrderTotalInv (create_order_items_loop oid items db).1 oid) ∧
    (∀ x, (findOrder db.orders x).isSome →
      (findOrder (create_order_items_loop oid items db).1.orders x).isSome) := by
  induction items generalizing db with
  | nil =>
    exact ⟨rfl, rfl, rfl, by simp [create_order_items_loop], fun h => h,
      fun x h => h⟩
  | cons ci rest ih =>
    have hvci := Hv ci (by simp)
    unfold validCartItem at hvci
    rcases hp : findProduct db.products ci.product_id with _ | p
    · simp only [hp] at hvci
      cases hvci
    · simp only [hp] at hvci
      rw [Bool.and_eq_true] at hvci
      obtain ⟨havail, hnl⟩ := hvci
      rw [Bool.not_eq_true'] at hnl
      have hstock : ¬ (p.stock < ci.quantity) := of_decide_eq_false hnl
      set it0 : OrderItem :=
        { id := db.order_items.length, order_id := oid,
          product_id := ci.product_id, quantity := ci.quantity,
          price := p.price, subtotal := 0 } with hit0
      have hstep : create_order_items_loop oid (ci :: rest) db =
          create_order_items_loop oid rest (db.save_order_item it0) := by
        simp only [create_order_items_loop, hp]
        rw [if_neg (by simp [havail]), if_neg hstock]
      have hsaved : savedItem db it0 =
          { it0 with price := p.price, subtotal := it0.quantity * p.price } :=
        savedItem_of_price db it0 p (by simpa [hit0] using hp) (by simp [hit0])
      have hprods : (db.save_order_item it0).products = db.products :=
        save_order_item_products db it0
      have hv' : ∀ c ∈ rest, validCartItem (db.save_order_item it0).products c
          = true := by
        intro c hc
        rw [hprods]
        exact Hv c (by simp [hc])
      obtain ⟨ihe, ihp, ihpay, ihm, ihinv, ihpres⟩ :=
        ih (db.save_order_item it0) hv'
      have hitems : (db.save_order_item it0).order_items =
          db.order_items ++ [savedItem db it0] :=
        save_order_item_items db it0
      refine ⟨?_, ?_, ?_, ?_, ?_, ?_⟩
      · rw [hstep]; exact ihe
      · rw [hstep, ihp, hprods]
      · rw [hstep, ihpay, save_order_item_payments db it0]
      · rw [hstep, ihm, hitems, hsaved]
        rw [itemsOfOrder_append]
        have hone : itemsOfOrder
            [{ it0 with price := p.price, subtotal := it0.quantity * p.price }]
            oid =
            [{ it0 with price := p.price, subtotal := it0.quantity * p.price }] := by
          unfold itemsOfOrder
          simp [hit0]
        rw [hone, hprods]
        simp only [List.map_append, List.map_cons, List.map_nil, List.append_assoc,
          List.nil_append, List.singleton_append]
        have hpof : priceOf db.products ci.product_id = p.price := by
          unfold priceOf
          rw [hp]
          rfl
        simp [hit0, hpof]
      · intro _hinv
        rw [hstep]
        exact ihinv (by
          have h1 := save_order_item_inv db it0
          simpa [hit0] using h1)
      · intro x hx
        rw [hstep]
        exact ihpres x (save_order_item_presence db it0 x hx)

theorem atomically_ok {α : Type} (f : DB → DB × Except String α) (db db2 : DB)
    (a : α) (h : f db = (db2, .ok a)) : atomically f db = (db2, .ok a) := by
  unfold atomically
  rw [h]

theorem atomically_error {α : Type} (f : DB → DB × Except String α)
    (db db' : DB) (e : String) (h : atomically f db = (db', .error e)) :
    db' = db := by
  unfold atomically at h
  rcases hb : f db with ⟨dbb, rb⟩
  rw [hb] at h
  cases rb with
  | error e2 =>
    simp only [Prod.mk.injEq, Except.error.injEq] at h
    exact h.1.symm
  | ok a =>
    simp at h

theorem create_order_spec (db : DB) (uid : Nat) (items : List CartItem)
    (notes : String)
    (Hor : ∀ o ∈ db.orders, o.id < db.orders.length)
    (Hit : ∀ it ∈ db.order_items, it.order_id ≠ db.orders.length)
    (Hne : items ≠ [])
    (Hv : ∀ ci ∈ items, validCartItem db.products ci = true) :
    ∃ db' o, OrderService.create_order db uid items notes = (db', .ok o) ∧
      findOrder db'.orders o.id = some o ∧
      (itemsOfOrder db'.order_items o.id).map
          (fun it => (it.product_id, it.quantity)) =
        items.map (fun ci => (ci.product_id, ci.quantity)) ∧
      o.total_amount = (items.map
        (fun ci => ci.quantity * priceOf db.products ci.product_id)).sum ∧
      db'.products = db.products ∧ db'.payments = db.payments := by
  obtain ⟨he, hprod, hpay, hmap, hinv, hpres⟩ :=
    create_order_items_loop_spec items { db with orders := db.orders ++ [{ id := db.orders.length, user_id := uid, total_amount := 0, status := OrderStatus.pending, notes := notes }] } db.orders.length (by intro ci hci; exact Hv ci hci)
  have hfind1 : findOrder ({ db with orders := db.orders ++ [{ id := db.orders.length, user_id := uid, total_amount := 0, status := OrderStatus.pending, notes := notes }] } : DB).orders db.orders.length = some { id := db.orders.length, user_id := uid, total_amount := 0, status := OrderStatus.pending, notes := notes } := by
    have h := findOrder_append_new db.orders { id := db.orders.length, user_id := uid, total_amount := 0, status := OrderStatus.pending, notes := notes } (by
      intro x hx heq
      have := Hor x hx
      rw [heq] at this
      exact absurd this (by simp))
    simpa using h
  have hpres1 : (findOrder (create_order_items_loop db.orders.length items { db with orders := db.orders ++ [{ id := db.orders.length, user_id := uid, total_amount := 0, status := OrderStatus.pending, notes := notes }] }).1.orders db.orders.length).isSome := by
    apply hpres
    rw [hfind1]
    rfl
  obtain ⟨o2, hfo2⟩ := Option.isSome_iff_exists.mp hpres1
  have ho2id : o2.id = db.orders.length := findOrder_some_id hfo2
  have hemp : itemsOfOrder ({ db with orders := db.orders ++ [{ id := db.orders.length, user_id := uid, total_amount := 0, status := OrderStatus.pending, notes := notes }] } : DB).order_items db.orders.length = [] := by
    apply itemsOfOrder_nil
    intro it hit
    exact Hit it hit
  have hinv1 : OrderTotalInv { db with orders := db.orders ++ [{ id := db.orders.length, user_id := uid, total_amount := 0, status := OrderStatus.pending, notes := notes }] } db.orders.length := by
    intro oX hfX
    rw [hfind1] at hfX
    injection hfX with hX
    rw [← hX, hemp]
    rfl
  have htot := (hinv hinv1) o2 hfo2
  have hbody : OrderService.create_order_body db uid items notes = ((create_order_items_loop db.orders.length items { db with orders := db.orders ++ [{ id := db.orders.length, user_id := uid, total_amount := 0, status := OrderStatus.pending, notes := notes }] }).1, .ok o2) := by
    unfold OrderService.create_order_body
    rw [if_neg (by simpa using Hne)]
    rcases hl : create_order_items_loop db.orders.length items { db with orders := db.orders ++ [{ id := db.orders.length, user_id := uid, total_amount := 0, status := OrderStatus.pending, notes := notes }] } with ⟨db2, rb⟩
    have hrb : rb = none := by rw [← he, hl]
    subst hrb
    have hf2 : findOrder db2.orders db.orders.length = some o2 := by
      rw [← hfo2, hl]
    simp only [hl, hf2]
  have hco : OrderService.create_order db uid items notes = ((create_order_items_loop db.orders.length items { db with orders := db.orders ++ [{ id := db.orders.length, user_id := uid, total_amount := 0, status := OrderStatus.pending, notes := notes }] }).1, .ok o2) :=
    atomically_ok (fun d => OrderService.create_order_body d uid items notes) db _ o2 hbody
  refine ⟨_, o2, hco, by rw [ho2id]; exact hfo2, ?_, ?_, by simpa using hprod,
    by simpa using hpay⟩
  · rw [ho2id]
    have h1 := congrArg (List.map (fun t : Nat × Int × Int => (t.1, t.2.1))) hmap
    rw [hemp] at h1
    simp only [List.map_nil, List.nil_append, List.map_map] at h1
    exact h1
  · rw [htot, calculate_total_eq_sum]
    have h1 := congrArg (List.map (fun t : Nat × Int × Int => t.2.2)) hmap
    rw [hemp] at h1
    simp only [List.map_nil, List.nil_append, List.map_map] at h1
    exact congrArg List.sum h1

theorem atomically_error_of {α : Type} (f : DB → DB × Except String α)
    (db db2 : DB) (e : String) (h : f db = (db2, .error e)) :
    atomically f db = (db, .error e) := by
  unfold atomically
  rw [h]

theorem create_order_items_loop_error (oid : Nat) (items : List CartItem)
    (db : DB)
    (H : ∃ ci ∈ items, validCartItem db.products ci = false) :
    (create_order_items_loop oid items db).2.isSome := by
  induction items generalizing db with
  | nil =>
    obtain ⟨c, hc, _⟩ := H
    cases hc
  | cons ci rest ih =>
    by_cases hv : validCartItem db.products ci = true
    · have hvkeep := hv
      unfold validCartItem at hv
      rcases hp : findProduct db.products ci.product_id with _ | p
      · simp only [hp] at hv
        cases hv
      · simp only [hp] at hv
        rw [Bool.and_eq_true] at hv
        obtain ⟨havail, hnl⟩ := hv
        rw [Bool.not_eq_true'] at hnl
        have hstock : ¬ (p.stock < ci.quantity) := of_decide_eq_false hnl
        have hstep : create_order_items_loop oid (ci :: rest) db =
            create_order_items_loop oid rest (db.save_order_item { id := db.order_items.length, order_id := oid, product_id := ci.product_id, quantity := ci.quantity, price := p.price, subtotal := 0 }) := by
          simp only [create_order_items_loop, hp]
          rw [if_neg (by simp [havail]), if_neg hstock]
        rw [hstep]
        apply ih
        obtain ⟨c, hc, hcf⟩ := H
        rcases List.mem_cons.mp hc with rfl | hcrest
        · rw [hvkeep] at hcf
          cases hcf
        · refine ⟨c, hcrest, ?_⟩
          rw [save_order_item_products]
          exact hcf
    · have hvf : validCartItem db.products ci = false := by
        cases h1 : validCartItem db.products ci
        · rfl
        · exact absurd h1 hv
      unfold validCartItem at hvf
      rcases hp : findProduct db.products ci.product_id with _ | p
      · simp only [create_order_items_loop, hp]
        rfl
      · simp only [hp] at hvf
        cases hav : p.is_available with
        | false =>
          simp only [create_order_items_loop, hp]
          rw [if_pos (by simp [hav])]
          rfl
        | true =>
          have hst : p.stock < ci.quantity := by
            by_contra hno
            rw [hav] at hvf
            simp [hno] at hvf
          simp only [create_order_items_loop, hp]
          rw [if_neg (by simp [hav]), if_pos hst]
          rfl

theorem create_order_error_of_invalid (db : DB) (uid : Nat)
    (items : List CartItem) (notes : String)
    (H : ∃ ci ∈ items, validCartItem db.products ci = false) :
    ∃ e, OrderService.create_order db uid items notes = (db, .error e) := by
  obtain ⟨c, hc, hcf⟩ := H
  have hne : items ≠ [] := by
    intro h
    rw [h] at hc
    cases hc
  have hloop := create_order_items_loop_error db.orders.length items
    { db with orders := db.orders ++ [{ id := db.orders.length, user_id := uid, total_amount := 0, status := OrderStatus.pending, notes := notes }] }
    ⟨c, hc, hcf⟩
  obtain ⟨e, hle⟩ := Option.isSome_iff_exists.mp hloop
  refine ⟨e, ?_⟩
  have hbody : ∃ db2, OrderService.create_order_body db uid items notes =
      (db2, .error e) := by
    unfold OrderService.create_order_body
    rw [if_neg (by simpa using hne)]
    rcases hl : create_order_items_loop db.orders.length items { db with orders := db.orders ++ [{ id := db.orders.length, user_id := uid, total_amount := 0, status := OrderStatus.pending, notes := notes }] } with ⟨db2, rb⟩
    have hrb : rb = some e := by
      rw [hl] at hle
      exact hle
    subst hrb
    exact ⟨db2, by simp only [hl]⟩
  obtain ⟨db2, hb⟩ := hbody
  exact atomically_error_of (fun d => OrderService.create_order_body d uid items notes) db db2 e hb

/-- C7. `create_order` is atomic: every failing run leaves the database
exactly as it was (no partial order); a run with an invalid item fails; a
run whose items all validate persists the order and all its items as one
unit. -/
theorem C7_create_order_atomic (db : DB) (uid : Nat) (items : List CartItem)
    (notes : String) :
    (∀ db' e, OrderService.create_order db uid items notes = (db', .error e) →
        db' = db) ∧
    ((∃ ci ∈ items, validCartItem db.products ci = false) →
        ∃ e, OrderService.create_order db uid items notes = (db, .error e)) ∧
    ((∀ o ∈ db.orders, o.id < db.orders.length) →
     (∀ it ∈ db.order_items, it.order_id ≠ db.orders.length) →
     items ≠ [] →
     (∀ ci ∈ items, validCartItem db.products ci = true) →
        ∃ db' o, OrderService.create_order db uid items notes = (db', .ok o) ∧
          findOrder db'.orders o.id = some o ∧
          (itemsOfOrder db'.order_items o.id).map
              (fun it => (it.product_id, it.quantity)) =
            items.map (fun ci => (ci.product_id, ci.quantity))) := by
  refine ⟨?_, ?_, ?_⟩
  · intro db' e h
    exact atomically_error (fun d => OrderService.create_order_body d uid items notes) db db' e h
  · intro H
    exact create_order_error_of_invalid db uid items notes H
  · intro Hor Hit Hne Hv
    obtain ⟨db', o, hco, hfind, hitems, _, _, _⟩ :=
      create_order_spec db uid items notes Hor Hit Hne Hv
    exact ⟨db', o, hco, hfind, hitems⟩

/-- Witness for C7: a missing product fails atomically; the valid cart
persists the order with its one item. -/
theorem C7_create_order_atomic_witness :
    (OrderService.create_order sampleDB 7 [badCart] "").1 = sampleDB ∧
    (∃ e, OrderService.create_order sampleDB 7 [badCart] "" =
        (sampleDB, .error e)) ∧
    (∃ db' o, OrderService.create_order sampleDB 7 [sampleCart] "" =
        (db', .ok o) ∧
      findOrder db'.orders o.id = some o ∧
      (itemsOfOrder db'.order_items o.id).map
          (fun it => (it.product_id, it.quantity)) =
        [sampleCart].map (fun ci => (ci.product_id, ci.quantity))) :=
  ⟨(C7_create_order_atomic sampleDB 7 [badCart] "").1
      (OrderService.create_order sampleDB 7 [badCart] "").1 "Product not found"
      (by decide),
   (C7_create_order_atomic sampleDB 7 [badCart] "").2.1
      ⟨badCart, by decide, by decide⟩,
   (C7_create_order_atomic sampleDB 7 [sampleCart] "").2.2
      (by intro o ho; cases ho) (by intro it hit; cases hit) (by decide)
      (by intro ci hci; simp only [List.mem_singleton] at hci; subst hci; decide)⟩

/-- C6. For every valid non-empty item list, `create_order` returns an order
whose `total_amount` is the sum over the items of quantity times the unit
price captured from the product at creation time (a later product price
edit rewrites no order row), and the total/subtotal invariant is
re-established by every item insertion and deletion. -/
theorem C6_total_is_sum_of_captured_prices (db : DB) (uid : Nat)
    (items : List CartItem) (notes : String)
    (Hor : ∀ o ∈ db.orders, o.id < db.orders.length)
    (Hit : ∀ it ∈ db.order_items, it.order_id ≠ db.orders.length)
    (Hne : items ≠ [])
    (Hv : ∀ ci ∈ items, validCartItem db.products ci = true) :
    (∃ db' o, OrderService.create_order db uid items notes = (db', .ok o) ∧
      o.total_amount = (items.map
        (fun ci => ci.quantity * priceOf db.products ci.product_id)).sum ∧
      (∀ q : Product, (db'.update_product_row q).orders = db'.orders)) ∧
    (∀ (d : DB) (x : OrderItem), OrderTotalInv (d.save_order_item x) x.order_id) ∧
    (∀ (d : DB) (x : OrderItem), OrderTotalInv (d.delete_order_item x) x.order_id) := by
  refine ⟨?_, save_order_item_inv, delete_order_item_inv⟩
  obtain ⟨db', o, hco, _, _, htot, _, _⟩ :=
    create_order_spec db uid items notes Hor Hit Hne Hv
  exact ⟨db', o, hco, htot, fun q => rfl⟩

/-- Witness for C6: two units at 50 cents give a 100-cent total; inserting
the sample item into the processing order recomputes its total to 100, and
deleting it recomputes the total back to 0. -/
theorem C6_total_is_sum_of_captured_prices_witness :
    (∃ db' o, OrderService.create_order sampleDB 7 [sampleCart] "" =
        (db', .ok o) ∧
      o.total_amount = ([sampleCart].map
        (fun ci => ci.quantity * priceOf sampleDB.products ci.product_id)).sum ∧
      (∀ q : Product, (db'.update_product_row q).orders = db'.orders)) ∧
    ({ id := 0, user_id := 7, total_amount := 100, status := .processing,
       notes := "" } : Order).total_amount =
      Order.calculate_total
        (itemsOfOrder (processingDB.save_order_item sampleItem).order_items
          sampleItem.order_id) ∧
    ({ id := 0, user_id := 7, total_amount := 0, status := .processing,
       notes := "" } : Order).total_amount =
      Order.calculate_total
        (itemsOfOrder
          ((processingDB.save_order_item sampleItem).delete_order_item
            sampleItem).order_items sampleItem.order_id) :=
  have h := C6_total_is_sum_of_captured_prices sampleDB 7 [sampleCart] ""
    (by intro o ho; cases ho) (by intro it hit; cases hit) (by decide)
    (by intro ci hci; simp only [List.mem_singleton] at hci; subst hci; decide)
  ⟨h.1,
   h.2.1 processingDB sampleItem
     { id := 0, user_id := 7, total_amount := 100, status := .processing,
       notes := "" } (by decide),
   h.2.2 (processingDB.save_order_item sampleItem) sampleItem
     { id := 0, user_id := 7, total_amount := 0, status := .processing,
       notes := "" } (by decide)⟩

/-- C1. The checkout's own `transaction.atomic` contradicts the documented
compensation behavior: when order creation succeeds (the body really does
insert the order) but the provider's `create_payment` fails, the raised
`ValidationError` exits the atomic block, so the whole run — including the
created order — is rolled back and nothing persists, instead of leaving a
`pending` order with zero payments. -/
theorem C1_provider_failure_rolls_back_order :
    (CheckoutService.create_order_and_initiate_payment_body sampleDB 7
        [sampleCart] "stripe" "" prFail).1.orders.length = 1 ∧
    CheckoutService.create_order_and_initiate_payment sampleDB 7 [sampleCart]
        "stripe" "" prFail = (sampleDB, .error "Payment initiation failed") ∧
    (CheckoutService.create_order_and_initiate_payment sampleDB 7 [sampleCart]
        "stripe" "" prFail).1.orders = [] := by
  refine ⟨by decide, by decide, by decide⟩
